import Mathlib

/-!
Shallow embedding of the procedural robot rig, the analytic two-link IK
solver and the phase-based motion controller of the automation landing
page (source: the `threeUtils` module revisions; the guarded solver
variant and the pick-and-place animation driver).

Real numbers model the JavaScript float arithmetic; `Option` models
possibly-missing object handles (`joint2Group?.rotation` style guards).
-/

namespace RoboticsLanding

open Real

/-- A 3-component vector (`THREE.Vector3`). -/
structure Vec3 where
  x : ℝ
  y : ℝ
  z : ℝ

/-- Euler angles of a rotation (`THREE.Euler`), one angle per axis. -/
structure EulerA where
  x : ℝ
  y : ℝ
  z : ℝ

/-- A joint group node of the rig: its local position and its rotation.
Either handle may be absent on a malformed rig (the source guards with
`joint2Group.position?.y` and `if (jointGroup.rotation)`). -/
structure JointGroup where
  position : Option Vec3
  rotation : Option EulerA

/-- The `jointAngles` record stored in the rig's `userData`. -/
structure JointAngles where
  joint1 : ℝ
  joint2 : ℝ
  joint3 : ℝ
  joint4 : ℝ
  joint5 : ℝ
  joint6 : ℝ

/-- An affine transform of 3-space: the mathematical content of a THREE
4x4 world matrix (last row `0 0 0 1`).  `solveIK` applies the inverted
world matrix of the robot to the target, so the rig state carries that
inverse transform directly. -/
structure Affine where
  m11 : ℝ
  m12 : ℝ
  m13 : ℝ
  m21 : ℝ
  m22 : ℝ
  m23 : ℝ
  m31 : ℝ
  m32 : ℝ
  m33 : ℝ
  tx : ℝ
  ty : ℝ
  tz : ℝ

/-- Application of an affine transform to a vector (`applyMatrix4`). -/
def Affine.apply (A : Affine) (v : Vec3) : Vec3 :=
  ⟨A.m11 * v.x + A.m12 * v.y + A.m13 * v.z + A.tx,
   A.m21 * v.x + A.m22 * v.y + A.m23 * v.z + A.ty,
   A.m31 * v.x + A.m32 * v.y + A.m33 * v.z + A.tz⟩

/-- The identity transform (robot placed at the world origin, unrotated). -/
def Affine.one : Affine := ⟨1, 0, 0, 0, 1, 0, 0, 0, 1, 0, 0, 0⟩

theorem Affine.one_apply (v : Vec3) : Affine.one.apply v = v := by
  cases v
  simp [Affine.apply, Affine.one]

/-- The rig state stored on the robot group and its `userData`: the six
joint handles, the angle record, the inverse world transform used to
localize targets, the gripper finger x-targets (the tween targets of the
`leftFingers` / `rightFingers` meshes, absent when the arrays are not
present), and the exposed `isGripping` / `ikTarget` state. -/
structure Rig where
  joint1 : Option JointGroup
  joint2 : Option JointGroup
  joint3 : Option JointGroup
  joint4 : Option JointGroup
  joint5 : Option JointGroup
  joint6 : Option JointGroup
  jointAngles : JointAngles
  worldInverse : Affine
  leftFingers : Option ℝ
  rightFingers : Option ℝ
  isGripping : Bool
  ikTarget : Vec3

/-- JavaScript `Math.atan2(y, x)`: the angle of the point `(x, y)`,
quadrant-correct (signed zeros ignored). -/
noncomputable def atan2 (y x : ℝ) : ℝ :=
  if 0 < x then arctan (y / x)
  else if x < 0 then
    (if 0 ≤ y then arctan (y / x) + π else arctan (y / x) - π)
  else if 0 < y then π / 2
  else if y < 0 then -(π / 2)
  else 0

/-- The solver's upper-arm length constant (`upperArmLength = 2.4`). -/
def upperArmLength : ℝ := 2.4

/-- The solver's forearm length constant (`forearmLength = 2.2`). -/
def forearmLength : ℝ := 2.2

/-- The raw law-of-cosines argument
`(upperArmSq + forearmSq - distanceSq) / (2 * upperArmLength * forearmLength)`
with `distanceSq = distance^2 + heightDiff^2`. -/
noncomputable def ikAcosArgument (distance heightDiff : ℝ) : ℝ :=
  (upperArmLength ^ 2 + forearmLength ^ 2 - (distance ^ 2 + heightDiff ^ 2)) /
    (2 * upperArmLength * forearmLength)

/-- The clamped argument `Math.min(1, Math.max(-1, ...))` fed to `acos`. -/
noncomputable def ikClampedArgument (distance heightDiff : ℝ) : ℝ :=
  min 1 (max (-1) (ikAcosArgument distance heightDiff))

/-- The elbow angle `Math.PI - Math.acos(clamped)`. -/
noncomputable def elbowAngleOf (distance heightDiff : ℝ) : ℝ :=
  π - arccos (ikClampedArgument distance heightDiff)

/-- The shoulder angle
`atan2(heightDiff, distance) + atan2(forearm*sin(elbow), upper + forearm*cos(elbow))`. -/
noncomputable def shoulderAngleOf (distance heightDiff : ℝ) : ℝ :=
  atan2 heightDiff distance +
    atan2 (forearmLength * Real.sin (elbowAngleOf distance heightDiff))
      (upperArmLength + forearmLength * Real.cos (elbowAngleOf distance heightDiff))

/-- The wrist stage of `solveIK`: the guard
`targetRotation && joint4Group?.rotation && joint5Group?.rotation && joint6Group?.rotation`
followed by the direct writes `joint4.rotation.z = targetRotation.z`,
`joint5.rotation.y = targetRotation.y`, `joint6.rotation.x = targetRotation.x`
and the corresponding `jointAngles` stores. -/
noncomputable def applyWrist (r : Rig) (targetRotation : EulerA) : Rig :=
  if (r.joint4.bind JointGroup.rotation).isSome &&
      (r.joint5.bind JointGroup.rotation).isSome &&
      (r.joint6.bind JointGroup.rotation).isSome then
    { r with
      joint4 := r.joint4.map fun j =>
        { j with rotation := j.rotation.map fun e => { e with z := targetRotation.z } }
      joint5 := r.joint5.map fun j =>
        { j with rotation := j.rotation.map fun e => { e with y := targetRotation.y } }
      joint6 := r.joint6.map fun j =>
        { j with rotation := j.rotation.map fun e => { e with x := targetRotation.x } }
      jointAngles :=
        { r.jointAngles with
          joint4 := targetRotation.z
          joint5 := targetRotation.y
          joint6 := targetRotation.x } }
  else r

/-- The guarded inverse-kinematics solver `solveIK` of the source: early
return when `joint1Group`, `joint2Group` or `joint3Group` is missing;
base yaw `atan2(localTarget.x, localTarget.z)` onto `joint1.rotation.y`;
two-link law-of-cosines solve of shoulder and elbow from the planar
distance and the height difference to `joint2`'s y position; shoulder
onto `joint2.rotation.z`, `elbow - PI/2` onto `joint3.rotation.z`; then
the direct wrist-orientation stage. -/
noncomputable def solveIK (robot : Rig) (targetPosition : Vec3)
    (targetRotation : EulerA) : Rig :=
  match robot.joint1, robot.joint2, robot.joint3 with
  | some joint1Group, some joint2Group, some joint3Group =>
    let localTarget := robot.worldInverse.apply targetPosition
    let baseYaw := atan2 localTarget.x localTarget.z
    let joint1Updated :=
      match joint1Group.rotation with
      | some e => { joint1Group with rotation := some { e with y := baseYaw } }
      | none => joint1Group
    let distance := Real.sqrt (localTarget.x ^ 2 + localTarget.z ^ 2)
    let heightDiff := localTarget.y - (joint2Group.position.map Vec3.y).getD 0
    let shoulderAngle := shoulderAngleOf distance heightDiff
    let elbowAngle := elbowAngleOf distance heightDiff
    let joint2Updated :=
      match joint2Group.rotation with
      | some e => { joint2Group with rotation := some { e with z := shoulderAngle } }
      | none => joint2Group
    let joint3Updated :=
      match joint3Group.rotation with
      | some e => { joint3Group with rotation := some { e with z := elbowAngle - π / 2 } }
      | none => joint3Group
    let solved : Rig :=
      { robot with
        joint1 := some joint1Updated
        joint2 := some joint2Updated
        joint3 := some joint3Updated
        jointAngles :=
          { robot.jointAngles with
            joint1 := baseYaw
            joint2 := shoulderAngle
            joint3 := elbowAngle } }
    applyWrist solved targetRotation
  | _, _, _ => robot

/-- JavaScript truncation toward zero, as used by the `%` operator. -/
noncomputable def jsTrunc (x : ℝ) : ℝ :=
  if 0 ≤ x then (⌊x⌋ : ℝ) else (⌈x⌉ : ℝ)

/-- The JavaScript remainder operator `x % y`: `x - y * trunc(x / y)`,
carrying the sign of the dividend. -/
noncomputable def jsMod (x y : ℝ) : ℝ := x - y * jsTrunc (x / y)

/-- The phase index of the pick-and-place routine:
`Math.floor(time * 0.25) % 4`. -/
noncomputable def cycleOf (t : ℝ) : ℝ := jsMod ((⌊t * 0.25⌋ : ℤ) : ℝ) 4

/-- The intra-phase progress `(time * 0.25) % 1`. -/
noncomputable def cycleTimeOf (t : ℝ) : ℝ := jsMod (t * 0.25) 1

/-- The easing function `smoothStep` of the source:
`x < 0.5 ? 2*x*x : 1 - Math.pow(-2*x+2, 2)/2`. -/
noncomputable def smoothStep (x : ℝ) : ℝ :=
  if x < 0.5 then 2 * x * x else 1 - (-2 * x + 2) ^ 2 / 2

/-- The gripper command of the motion cycle: open in phase 0, closed in
phases 1 and 2, and in phase 3 closed only while `cycleTime < 0.3`
(`grip = cycleTime < 0.3`).  Outside the four cases the initial
`grip = false` stands (unreachable for nonnegative time). -/
noncomputable def gripOf (t : ℝ) : Bool :=
  if cycleOf t = 0 then false
  else if cycleOf t = 1 then true
  else if cycleOf t = 2 then true
  else if cycleOf t = 3 then (if cycleTimeOf t < 0.3 then true else false)
  else false

/-- The target position of the pick-and-place switch in
`animateUniversalRobot` (the four-case sequence of the full variant).
For a phase value outside the four cases the source leaves the
components undefined; that branch is unreachable for nonnegative time
and is modelled as the origin. -/
noncomputable def targetPositionOf (t : ℝ) : Vec3 :=
  let s := smoothStep (cycleTimeOf t)
  if cycleOf t = 0 then
    ⟨4 + Real.sin (t * 0.1) * 0.3, -1 - s * 1.5, 1 + Real.cos (t * 0.1) * 0.3⟩
  else if cycleOf t = 1 then
    ⟨4 + Real.sin (t * 0.1) * 0.3, -2.5 + s * 2, 1 + Real.cos (t * 0.1) * 0.3⟩
  else if cycleOf t = 2 then
    ⟨4 + Real.sin (t * 0.1) * 0.3 - s * 2, -0.5, 1 + Real.cos (t * 0.1) * 0.3 - s * 1⟩
  else if cycleOf t = 3 then
    ⟨2 + Real.sin (t * 0.1) * 0.3, -0.5 - s * 0.5, 0 + Real.cos (t * 0.1) * 0.3⟩
  else ⟨0, 0, 0⟩

/-- The end-effector orientation request:
`new THREE.Euler(0, sin(time*0.3)*0.2, sin(time*0.5)*0.3)`. -/
noncomputable def targetRotationOf (t : ℝ) : EulerA :=
  ⟨0, Real.sin (t * 0.3) * 0.2, Real.sin (t * 0.5) * 0.3⟩

/-- The two-valued gripper finger width target:
`grip ? 0.08 : 0.15`. -/
noncomputable def gripperWidthOf (t : ℝ) : ℝ :=
  if gripOf t then 0.08 else 0.15

/-- The per-frame animation driver `animateUniversalRobot`: derive the
phase targets from `time`, solve IK, tween the finger x positions toward
the two-valued width (when the finger arrays exist), and store the grip
state and target on the rig (`userData.isGripping`, `userData.ikTarget`). -/
noncomputable def animateUniversalRobot (robot : Rig) (t : ℝ) : Rig :=
  let grip := gripOf t
  let targetPosition := targetPositionOf t
  let solvedRig := solveIK robot targetPosition (targetRotationOf t)
  let gripperWidth := gripperWidthOf t
  { solvedRig with
    leftFingers := solvedRig.leftFingers.map fun _ => -gripperWidth
    rightFingers := solvedRig.rightFingers.map fun _ => gripperWidth
    isGripping := grip
    ikTarget := targetPosition }

/-- The elbow-joint offset along the upper arm in the detailed
`createUniversalRobot` build: `joint3Group.position.z = 2.4` (the upper
arm box is 2.4 long). -/
def detailedRigUpperArmLength : ℝ := 2.4

/-- The wrist-joint offset along the forearm in the detailed
`createUniversalRobot` build: `joint4Group.position.z = 2.2` (the
forearm box is 2.2 long). -/
def detailedRigForearmLength : ℝ := 2.2

/-- The shoulder-to-elbow offset in the large `createRobotSegments`
variant: `segment2.position.y = 2.0`. -/
def segmentRigUpperArmLength : ℝ := 2.0

/-- The elbow-to-wrist offset in the large `createRobotSegments`
variant: `segment3.position.y = 1.8`. -/
def segmentRigForearmLength : ℝ := 1.8

/-- The shoulder-to-elbow offset in the compact `createRobotSegments`
variant: `segment2.position.y = 1`. -/
def compactRigUpperArmLength : ℝ := 1.0

/-- The elbow-to-wrist offset in the compact `createRobotSegments`
variant: `segment3.position.y = 0.8`. -/
def compactRigForearmLength : ℝ := 0.8

/-- A fully populated joint handle at the origin with zero rest angles. -/
def testJoint : JointGroup := ⟨some ⟨0, 0, 0⟩, some ⟨0, 0, 0⟩⟩

/-- A fully populated rig at the world origin with all rest angles zero:
the concrete test vehicle for the solver scenarios. -/
def testRig : Rig where
  joint1 := some testJoint
  joint2 := some testJoint
  joint3 := some testJoint
  joint4 := some testJoint
  joint5 := some testJoint
  joint6 := some testJoint
  jointAngles := ⟨0, 0, 0, 0, 0, 0⟩
  worldInverse := Affine.one
  leftFingers := some (-0.15)
  rightFingers := some 0.15
  isGripping := false
  ikTarget := ⟨0, 0, 0⟩

/-! Projection facts: the wrist stage touches only the wrist joints and
their angle slots. -/

theorem applyWrist_joint1 (r : Rig) (tr : EulerA) :
    (applyWrist r tr).joint1 = r.joint1 := by
  unfold applyWrist; split <;> rfl

theorem applyWrist_joint2 (r : Rig) (tr : EulerA) :
    (applyWrist r tr).joint2 = r.joint2 := by
  unfold applyWrist; split <;> rfl

theorem applyWrist_joint3 (r : Rig) (tr : EulerA) :
    (applyWrist r tr).joint3 = r.joint3 := by
  unfold applyWrist; split <;> rfl

theorem applyWrist_angle1 (r : Rig) (tr : EulerA) :
    (applyWrist r tr).jointAngles.joint1 = r.jointAngles.joint1 := by
  unfold applyWrist; split <;> rfl

theorem applyWrist_angle2 (r : Rig) (tr : EulerA) :
    (applyWrist r tr).jointAngles.joint2 = r.jointAngles.joint2 := by
  unfold applyWrist; split <;> rfl

theorem applyWrist_angle3 (r : Rig) (tr : EulerA) :
    (applyWrist r tr).jointAngles.joint3 = r.jointAngles.joint3 := by
  unfold applyWrist; split <;> rfl

theorem applyWrist_leftFingers (r : Rig) (tr : EulerA) :
    (applyWrist r tr).leftFingers = r.leftFingers := by
  unfold applyWrist; split <;> rfl

theorem applyWrist_rightFingers (r : Rig) (tr : EulerA) :
    (applyWrist r tr).rightFingers = r.rightFingers := by
  unfold applyWrist; split <;> rfl

theorem applyWrist_isGripping (r : Rig) (tr : EulerA) :
    (applyWrist r tr).isGripping = r.isGripping := by
  unfold applyWrist; split <;> rfl

/-- C1: for every rig whose `joint1`, `joint2`, `joint3` are present
(with `joint2` carrying a y position and `joint2`/`joint3` settable
rotations) and every target, `solveIK` computes the elbow angle as
`π - acos(clamp((L1² + L2² - dist²)/(2 L1 L2), -1, 1))` with `L1 = 2.4`,
`L2 = 2.2` and `dist² = d² + h²` (`d` the local target's planar distance,
`h` its y minus `joint2`'s y), computes the shoulder angle as
`atan2(h, d) + atan2(L2 sin e, L1 + L2 cos e)`, and writes the shoulder
angle to `joint2`'s z rotation and `elbow - π/2` to `joint3`'s z
rotation. -/
theorem solveIK_two_link_solution
    (r : Rig) (tp : Vec3) (tr : EulerA) (j1 j2 j3 : JointGroup)
    (p2 : Vec3) (e2 e3 : EulerA) (d hgt elbow shoulder : ℝ)
    (h1 : r.joint1 = some j1) (h2 : r.joint2 = some j2) (h3 : r.joint3 = some j3)
    (hp2 : j2.position = some p2) (he2 : j2.rotation = some e2)
    (he3 : j3.rotation = some e3)
    (hd : d = Real.sqrt ((r.worldInverse.apply tp).x ^ 2 + (r.worldInverse.apply tp).z ^ 2))
    (hh : hgt = (r.worldInverse.apply tp).y - p2.y)
    (he : elbow = π - Real.arccos (min 1 (max (-1)
      ((2.4 ^ 2 + 2.2 ^ 2 - (d ^ 2 + hgt ^ 2)) / (2 * 2.4 * 2.2)))))
    (hs : shoulder = atan2 hgt d +
      atan2 (2.2 * Real.sin elbow) (2.4 + 2.2 * Real.cos elbow)) :
    (solveIK r tp tr).jointAngles.joint3 = elbow ∧
    (solveIK r tp tr).jointAngles.joint2 = shoulder ∧
    (solveIK r tp tr).joint2 = some { j2 with rotation := some { e2 with z := shoulder } } ∧
    (solveIK r tp tr).joint3 = some { j3 with rotation := some { e3 with z := elbow - π / 2 } } := by
  subst hd hh he hs
  simp only [solveIK, h1, h2, h3, hp2, he2, he3, applyWrist_joint2,
    applyWrist_joint3, applyWrist_angle2, applyWrist_angle3,
    Option.map_some', Option.getD_some]
  refine ⟨?_, ?_, ?_, ?_⟩ <;>
    simp [elbowAngleOf, shoulderAngleOf, ikClampedArgument, ikAcosArgument,
      upperArmLength, forearmLength]

/-- Witness for C1: the two-link solution theorem applied to the
concrete rig at the origin with target `(0, 0, 2)`. -/
theorem solveIK_two_link_solution_witness :
    (solveIK testRig ⟨0, 0, 2⟩ ⟨0, 0, 0⟩).jointAngles.joint3 =
      π - Real.arccos (min 1 (max (-1)
        ((2.4 ^ 2 + 2.2 ^ 2 - ((2 : ℝ) ^ 2 + (0 : ℝ) ^ 2)) / (2 * 2.4 * 2.2)))) := by
  have h0 : testRig.worldInverse.apply ⟨0, 0, 2⟩ = ⟨0, 0, 2⟩ := Affine.one_apply _
  refine (solveIK_two_link_solution testRig ⟨0, 0, 2⟩ ⟨0, 0, 0⟩ testJoint testJoint
    testJoint ⟨0, 0, 0⟩ ⟨0, 0, 0⟩ ⟨0, 0, 0⟩ 2 0
    (π - Real.arccos (min 1 (max (-1)
      ((2.4 ^ 2 + 2.2 ^ 2 - ((2 : ℝ) ^ 2 + (0 : ℝ) ^ 2)) / (2 * 2.4 * 2.2)))))
    (atan2 0 2 + atan2
      (2.2 * Real.sin (π - Real.arccos (min 1 (max (-1)
        ((2.4 ^ 2 + 2.2 ^ 2 - ((2 : ℝ) ^ 2 + (0 : ℝ) ^ 2)) / (2 * 2.4 * 2.2))))))
      (2.4 + 2.2 * Real.cos (π - Real.arccos (min 1 (max (-1)
        ((2.4 ^ 2 + 2.2 ^ 2 - ((2 : ℝ) ^ 2 + (0 : ℝ) ^ 2)) / (2 * 2.4 * 2.2)))))))
    rfl rfl rfl rfl rfl rfl ?_ ?_ rfl rfl).1
  · rw [h0]
    rw [show ((⟨0, 0, 2⟩ : Vec3).x ^ 2 + (⟨0, 0, 2⟩ : Vec3).z ^ 2) = (2 : ℝ) ^ 2 by norm_num]
    rw [Real.sqrt_sq (by norm_num : (0 : ℝ) ≤ 2)]
  · rw [h0]
    norm_num

/-- C9: the solved base yaw of `joint1` equals
`atan2(localTarget.x, localTarget.z)`; with the rig at the world origin a
target `(0, y, 1)` resolves to yaw `0` and a target `(1, y, 0)` resolves
to yaw `π/2`. -/
theorem solveIK_base_yaw
    (r : Rig) (tr : EulerA) (j1 j2 j3 : JointGroup)
    (h1 : r.joint1 = some j1) (h2 : r.joint2 = some j2) (h3 : r.joint3 = some j3)
    (hW : r.worldInverse = Affine.one) :
    (∀ tp : Vec3, (solveIK r tp tr).jointAngles.joint1 =
      atan2 (r.worldInverse.apply tp).x (r.worldInverse.apply tp).z) ∧
    (∀ y : ℝ, (solveIK r ⟨0, y, 1⟩ tr).jointAngles.joint1 = 0) ∧
    (∀ y : ℝ, (solveIK r ⟨1, y, 0⟩ tr).jointAngles.joint1 = π / 2) := by
  have base : ∀ tp : Vec3, (solveIK r tp tr).jointAngles.joint1 =
      atan2 (r.worldInverse.apply tp).x (r.worldInverse.apply tp).z := by
    intro tp
    simp only [solveIK, h1, h2, h3, applyWrist_angle1]
  refine ⟨base, ?_, ?_⟩
  · intro y
    rw [base ⟨0, y, 1⟩, hW, Affine.one_apply]
    simp only [atan2]
    norm_num [Real.arctan_zero]
  · intro y
    rw [base ⟨1, y, 0⟩, hW, Affine.one_apply]
    simp only [atan2]
    norm_num

/-- Witness for C9: the base-yaw theorem applied to the concrete origin
rig; a target on the positive local z axis yields yaw `0`. -/
theorem solveIK_base_yaw_witness :
    (solveIK testRig ⟨0, 7, 1⟩ ⟨0, 0, 0⟩).jointAngles.joint1 = 0 :=
  (solveIK_base_yaw testRig ⟨0, 0, 0⟩ testJoint testJoint testJoint
    rfl rfl rfl rfl).2.1 7

/-- A joint whose yaw slot still holds a stale angle of 5 radians. -/
def staleJoint : JointGroup := ⟨some ⟨0, 0, 0⟩, some ⟨0, 5, 0⟩⟩

/-- A rig whose elbow handle (`joint2`) is missing from `userData`. -/
def rigMissingElbow : Rig := { testRig with joint1 := some staleJoint, joint2 := none }

/-- A wrist joint handle without a settable rotation. -/
def noRotJoint : JointGroup := ⟨some ⟨0, 0, 0⟩, none⟩

/-- A wrist joint still holding stale angles of 9 radians on every axis. -/
def staleWrist : JointGroup := ⟨some ⟨0, 0, 0⟩, some ⟨9, 9, 9⟩⟩

/-- A rig whose `joint4` lacks a settable rotation while `joint5` and
`joint6` are intact. -/
def rigBrokenWrist : Rig :=
  { testRig with
    joint4 := some noRotJoint
    joint5 := some staleWrist
    joint6 := some staleWrist }

/-- Shared evaluation: on the origin test rig the solved elbow angle is
the two-link elbow of the target's planar distance and height. -/
theorem testRig_elbow (tp : Vec3) (tr : EulerA) :
    (solveIK testRig tp tr).jointAngles.joint3 =
      elbowAngleOf (Real.sqrt (tp.x ^ 2 + tp.z ^ 2)) tp.y := by
  simp [solveIK, testRig, testJoint, applyWrist_angle3, Affine.one_apply]

/-- Shared evaluation: on the origin test rig the solved shoulder angle is
the two-link shoulder of the target's planar distance and height. -/
theorem testRig_shoulder (tp : Vec3) (tr : EulerA) :
    (solveIK testRig tp tr).jointAngles.joint2 =
      shoulderAngleOf (Real.sqrt (tp.x ^ 2 + tp.z ^ 2)) tp.y := by
  simp [solveIK, testRig, testJoint, applyWrist_angle2, Affine.one_apply]

/-- Shared evaluation: on the origin test rig the solved base yaw is
`atan2` of the target's x and z. -/
theorem testRig_yaw (tp : Vec3) (tr : EulerA) :
    (solveIK testRig tp tr).jointAngles.joint1 = atan2 tp.x tp.z := by
  simp [solveIK, testRig, testJoint, applyWrist_angle1, Affine.one_apply]

/-- C4 counterexample: on a rig missing `joint2`, the solve returns the
rig unchanged, so `joint1` keeps its stale yaw 5 instead of the newly
computed base yaw `atan2 0 1 = 0` the claim promises. -/
theorem solveIK_missing_joint_counterexample :
    (solveIK rigMissingElbow ⟨0, 0, 1⟩ ⟨0, 0, 0⟩).joint1 = some staleJoint ∧
    atan2 0 1 = 0 ∧ (5 : ℝ) ≠ 0 := by
  refine ⟨?_, ?_, by norm_num⟩
  · simp [solveIK, rigMissingElbow]
  · simp only [atan2]
    norm_num [Real.arctan_zero]

/-- C4 amended: invoking the IK solve on a rig whose `joint2` or
`joint3` is missing never throws and returns early, leaving the whole
rig — `joint1` included — unchanged. -/
theorem solveIK_missing_joint_unchanged (r : Rig) (tp : Vec3) (tr : EulerA)
    (h : r.joint2 = none ∨ r.joint3 = none) :
    solveIK r tp tr = r := by
  rcases h with h | h
  · cases h1 : r.joint1 <;> cases h3 : r.joint3 <;> simp [solveIK, h, h1, h3]
  · cases h1 : r.joint1 <;> cases h2 : r.joint2 <;> simp [solveIK, h, h1, h2]

/-- Witness for the amended C4: the solver leaves the concrete broken rig
untouched. -/
theorem solveIK_missing_joint_unchanged_witness :
    solveIK rigMissingElbow ⟨0, 0, 1⟩ ⟨0, 0, 0⟩ = rigMissingElbow :=
  solveIK_missing_joint_unchanged rigMissingElbow ⟨0, 0, 1⟩ ⟨0, 0, 0⟩ (Or.inl rfl)

/-- C7 counterexample: when `joint4` lacks a settable rotation, the
solver skips the whole wrist stage, so `joint5` keeps its stale rotation
`(9,9,9)` instead of receiving the orientation angle `y = 2` the claim
promises. -/
theorem solveIK_wrist_skip_counterexample :
    (solveIK rigBrokenWrist ⟨0, 0, 1⟩ ⟨1, 2, 3⟩).joint5 = some staleWrist ∧
    (9 : ℝ) ≠ 2 := by
  refine ⟨?_, by norm_num⟩
  simp [solveIK, applyWrist, rigBrokenWrist, noRotJoint, testRig, testJoint]

/-- C7 amended: the wrist joints receive the three orientation angles
directly and one-to-one (`joint4.z ← rot.z`, `joint5.y ← rot.y`,
`joint6.x ← rot.x`) when all three wrist rotations are settable; if any
one of them is missing, the whole wrist stage is skipped and all three
wrist joints (and their angle slots) are left unchanged, while the
shoulder/elbow chain still solves. -/
theorem solveIK_wrist_mapping
    (r : Rig) (tp : Vec3) (tr : EulerA) (j1 j2 j3 : JointGroup)
    (h1 : r.joint1 = some j1) (h2 : r.joint2 = some j2) (h3 : r.joint3 = some j3) :
    (∀ j4 j5 j6 e4 e5 e6,
      r.joint4 = some j4 → r.joint5 = some j5 → r.joint6 = some j6 →
      j4.rotation = some e4 → j5.rotation = some e5 → j6.rotation = some e6 →
      (solveIK r tp tr).joint4 = some { j4 with rotation := some { e4 with z := tr.z } } ∧
      (solveIK r tp tr).joint5 = some { j5 with rotation := some { e5 with y := tr.y } } ∧
      (solveIK r tp tr).joint6 = some { j6 with rotation := some { e6 with x := tr.x } } ∧
      (solveIK r tp tr).jointAngles.joint4 = tr.z ∧
      (solveIK r tp tr).jointAngles.joint5 = tr.y ∧
      (solveIK r tp tr).jointAngles.joint6 = tr.x) ∧
    ((r.joint4.bind JointGroup.rotation = none ∨
      r.joint5.bind JointGroup.rotation = none ∨
      r.joint6.bind JointGroup.rotation = none) →
      (solveIK r tp tr).joint4 = r.joint4 ∧
      (solveIK r tp tr).joint5 = r.joint5 ∧
      (solveIK r tp tr).joint6 = r.joint6 ∧
      (solveIK r tp tr).jointAngles.joint4 = r.jointAngles.joint4 ∧
      (solveIK r tp tr).jointAngles.joint5 = r.jointAngles.joint5 ∧
      (solveIK r tp tr).jointAngles.joint6 = r.jointAngles.joint6) := by
  constructor
  · intro j4 j5 j6 e4 e5 e6 h4 h5 h6 hr4 hr5 hr6
    simp [solveIK, h1, h2, h3, applyWrist, h4, h5, h6, hr4, hr5, hr6]
  · intro hmiss
    have hguard : (r.joint4.bind JointGroup.rotation).isSome = false ∨
        (r.joint5.bind JointGroup.rotation).isSome = false ∨
        (r.joint6.bind JointGroup.rotation).isSome = false := by
      rcases hmiss with h | h | h
      · exact Or.inl (by rw [h]; rfl)
      · exact Or.inr (Or.inl (by rw [h]; rfl))
      · exact Or.inr (Or.inr (by rw [h]; rfl))
    simp only [solveIK, h1, h2, h3]
    rcases hguard with h | h | h <;> simp [applyWrist, h]

/-- Witness for the amended C7: on the intact test rig the wrist joints
receive the orientation angles one-to-one (`joint4` gets the z angle 3). -/
theorem solveIK_wrist_mapping_witness :
    (solveIK testRig ⟨0, 0, 1⟩ ⟨1, 2, 3⟩).jointAngles.joint4 = 3 :=
  ((solveIK_wrist_mapping testRig ⟨0, 0, 1⟩ ⟨1, 2, 3⟩ testJoint testJoint testJoint
    rfl rfl rfl).1 testJoint testJoint testJoint ⟨0, 0, 0⟩ ⟨0, 0, 0⟩ ⟨0, 0, 0⟩
    rfl rfl rfl rfl rfl rfl).2.2.2.1

/-- Shared arithmetic: a target strictly beyond the total reach drives
the clamped law-of-cosines argument to `-1`. -/
theorem ikClampedArgument_far (d hgt : ℝ)
    (hfar : (upperArmLength + forearmLength) ^ 2 < d ^ 2 + hgt ^ 2) :
    ikClampedArgument d hgt = -1 := by
  have harg : ikAcosArgument d hgt ≤ -1 := by
    rw [ikAcosArgument, upperArmLength, forearmLength] at *
    rw [div_le_iff₀ (by norm_num : (0 : ℝ) < 2 * 2.4 * 2.2)]
    norm_num at hfar ⊢
    linarith
  rw [ikClampedArgument, max_eq_left harg]
  exact min_eq_right (by norm_num)

/-- Shared arithmetic: a target strictly inside the annular dead zone
(closer than the link-length difference) drives the clamped argument to
`1`. -/
theorem ikClampedArgument_close (d hgt : ℝ)
    (hclose : d ^ 2 + hgt ^ 2 < (upperArmLength - forearmLength) ^ 2) :
    ikClampedArgument d hgt = 1 := by
  have harg : 1 ≤ ikAcosArgument d hgt := by
    rw [ikAcosArgument, upperArmLength, forearmLength] at *
    rw [le_div_iff₀ (by norm_num : (0 : ℝ) < 2 * 2.4 * 2.2)]
    norm_num at hclose ⊢
    linarith
  rw [ikClampedArgument, max_eq_right (by linarith)]
  exact min_eq_left harg

/-- C3 counterexample: the local target `(0, 0, 5)` lies farther than
`L1 + L2 = 4.6` from the shoulder, and there the clamped acos argument
is `-1`, not the `+1` the claim states (the elbow angle still lands at
the fully-extended value `0`). -/
theorem solveIK_reach_counterexample :
    Real.sqrt ((0 : ℝ) ^ 2 + 5 ^ 2) > upperArmLength + forearmLength ∧
    ikClampedArgument (Real.sqrt ((0 : ℝ) ^ 2 + 5 ^ 2)) 0 = -1 ∧
    (-1 : ℝ) ≠ 1 ∧
    (solveIK testRig ⟨0, 0, 5⟩ ⟨0, 0, 0⟩).jointAngles.joint3 = 0 := by
  have h25 : ((0 : ℝ) ^ 2 + 5 ^ 2) = 5 ^ 2 := by norm_num
  have h5 : Real.sqrt ((0 : ℝ) ^ 2 + 5 ^ 2) = 5 := by
    rw [h25, Real.sqrt_sq (by norm_num : (0 : ℝ) ≤ 5)]
  have hclamp : ikClampedArgument (Real.sqrt ((0 : ℝ) ^ 2 + 5 ^ 2)) 0 = -1 := by
    apply ikClampedArgument_far
    rw [h5, upperArmLength, forearmLength]
    norm_num
  refine ⟨?_, hclamp, by norm_num, ?_⟩
  · rw [h5, upperArmLength, forearmLength]; norm_num
  · rw [testRig_elbow]
    show elbowAngleOf (Real.sqrt ((0 : ℝ) ^ 2 + 5 ^ 2)) 0 = 0
    rw [elbowAngleOf, hclamp, Real.arccos_neg_one, sub_self]

/-- C3 amended: beyond the total reach `L1 + L2 = 4.6` the acos argument
is clamped to `-1` and the solved elbow angle equals the fully-extended
value `0`; inside the dead zone `|L1 - L2| = 0.2` it is clamped to `+1`
and the elbow angle equals the fully-folded value `π`; in every case the
clamped argument stays in `[-1, 1]` and the elbow angle stays in the
finite range `[0, π]`. -/
theorem solveIK_reach_clamped
    (r : Rig) (tp : Vec3) (tr : EulerA) (j1 j2 j3 : JointGroup)
    (p2 : Vec3) (d hgt : ℝ)
    (h1 : r.joint1 = some j1) (h2 : r.joint2 = some j2) (h3 : r.joint3 = some j3)
    (hp2 : j2.position = some p2)
    (hd : d = Real.sqrt ((r.worldInverse.apply tp).x ^ 2 + (r.worldInverse.apply tp).z ^ 2))
    (hh : hgt = (r.worldInverse.apply tp).y - p2.y) :
    (Real.sqrt (d ^ 2 + hgt ^ 2) > upperArmLength + forearmLength →
      ikClampedArgument d hgt = -1 ∧ (solveIK r tp tr).jointAngles.joint3 = 0) ∧
    (Real.sqrt (d ^ 2 + hgt ^ 2) < upperArmLength - forearmLength →
      ikClampedArgument d hgt = 1 ∧ (solveIK r tp tr).jointAngles.joint3 = π) ∧
    (-1 ≤ ikClampedArgument d hgt ∧ ikClampedArgument d hgt ≤ 1 ∧
      0 ≤ (solveIK r tp tr).jointAngles.joint3 ∧
      (solveIK r tp tr).jointAngles.joint3 ≤ π) := by
  have hjoint : (solveIK r tp tr).jointAngles.joint3 = elbowAngleOf d hgt := by
    subst hd hh
    simp only [solveIK, h1, h2, h3, hp2, applyWrist_angle3, Option.map_some',
      Option.getD_some]
  refine ⟨?_, ?_, ?_⟩
  · intro hfar
    have hsq : (upperArmLength + forearmLength) ^ 2 < d ^ 2 + hgt ^ 2 := by
      have hL : (0 : ℝ) ≤ upperArmLength + forearmLength := by
        rw [upperArmLength, forearmLength]; norm_num
      exact (Real.lt_sqrt hL).mp hfar
    have hclamp := ikClampedArgument_far d hgt hsq
    exact ⟨hclamp, by rw [hjoint, elbowAngleOf, hclamp, Real.arccos_neg_one, sub_self]⟩
  · intro hclose
    have hpos : (0 : ℝ) < upperArmLength - forearmLength := by
      rw [upperArmLength, forearmLength]; norm_num
    have hsq : d ^ 2 + hgt ^ 2 < (upperArmLength - forearmLength) ^ 2 :=
      (Real.sqrt_lt' hpos).mp hclose
    have hclamp := ikClampedArgument_close d hgt hsq
    refine ⟨hclamp, ?_⟩
    rw [hjoint, elbowAngleOf, hclamp, Real.arccos_one, sub_zero]
  · refine ⟨?_, ?_, ?_, ?_⟩
    · exact le_min (by norm_num) (le_max_left _ _)
    · exact min_le_left _ _
    · rw [hjoint, elbowAngleOf, sub_nonneg]
      exact Real.arccos_le_pi _
    · rw [hjoint, elbowAngleOf]
      have := Real.arccos_nonneg (ikClampedArgument d hgt)
      linarith

/-- Witness for the amended C3: the far target `(0, 0, 5)` on the origin
rig clamps the argument to `-1` and extends the elbow fully. -/
theorem solveIK_reach_clamped_witness :
    ikClampedArgument 5 0 = -1 ∧
    (solveIK testRig ⟨0, 0, 5⟩ ⟨0, 0, 0⟩).jointAngles.joint3 = 0 := by
  have h5 : (5 : ℝ) = Real.sqrt ((testRig.worldInverse.apply ⟨0, 0, 5⟩).x ^ 2 +
      (testRig.worldInverse.apply ⟨0, 0, 5⟩).z ^ 2) := by
    rw [show testRig.worldInverse.apply ⟨0, 0, 5⟩ = ⟨0, 0, 5⟩ from Affine.one_apply _]
    rw [show ((⟨0, 0, 5⟩ : Vec3).x ^ 2 + (⟨0, 0, 5⟩ : Vec3).z ^ 2) = (5 : ℝ) ^ 2 by norm_num]
    rw [Real.sqrt_sq (by norm_num : (0 : ℝ) ≤ 5)]
  have h0 : (0 : ℝ) = (testRig.worldInverse.apply ⟨0, 0, 5⟩).y - (⟨0, 0, 0⟩ : Vec3).y := by
    rw [show testRig.worldInverse.apply ⟨0, 0, 5⟩ = ⟨0, 0, 5⟩ from Affine.one_apply _]
    norm_num
  exact (solveIK_reach_clamped testRig ⟨0, 0, 5⟩ ⟨0, 0, 0⟩ testJoint testJoint
    testJoint ⟨0, 0, 0⟩ 5 0 rfl rfl rfl rfl h5 h0).1
    (by rw [upperArmLength, forearmLength]
        rw [show ((5 : ℝ) ^ 2 + (0 : ℝ) ^ 2) = 5 ^ 2 by norm_num]
        rw [Real.sqrt_sq (by norm_num : (0 : ℝ) ≤ 5)]
        norm_num)

/-- Shared special value: `arccos (1/2) = π/3`. -/
theorem arccos_one_half_eq : Real.arccos (1 / 2) = π / 3 := by
  have h1 : (0 : ℝ) ≤ π / 3 := by positivity
  have h2 : π / 3 ≤ π := by linarith [Real.pi_pos]
  have h := Real.arccos_cos h1 h2
  rw [Real.cos_pi_div_three] at h
  exact h

/-- Shared bound: `arccos 0.625 < π/3`, by strict antitonicity of
`arccos` from `1/2 < 0.625`. -/
theorem arccos_scenario_lt : Real.arccos 0.625 < π / 3 := by
  have hmem1 : (1 / 2 : ℝ) ∈ Set.Icc (-1 : ℝ) 1 := by
    constructor <;> norm_num
  have hmem2 : (0.625 : ℝ) ∈ Set.Icc (-1 : ℝ) 1 := by
    constructor <;> norm_num
  have h := Real.strictAntiOn_arccos hmem1 hmem2 (by norm_num : (1 / 2 : ℝ) < 0.625)
  rwa [arccos_one_half_eq] at h

/-- Shared evaluation: the scenario's clamped acos argument at planar
distance 2 and height 0 is `0.625`. -/
theorem ikClampedArgument_scenario : ikClampedArgument 2 0 = 0.625 := by
  have harg : ikAcosArgument 2 0 = 0.625 := by
    rw [ikAcosArgument, upperArmLength, forearmLength]; norm_num
  rw [ikClampedArgument, harg, max_eq_right (by norm_num : (-1 : ℝ) ≤ 0.625),
    min_eq_right (by norm_num : (0.625 : ℝ) ≤ 1)]

/-- Shared evaluation: `sqrt (0² + 2²) = 2`. -/
theorem sqrt_scenario : Real.sqrt ((0 : ℝ) ^ 2 + 2 ^ 2) = 2 := by
  rw [show ((0 : ℝ) ^ 2 + 2 ^ 2) = 2 ^ 2 by norm_num,
    Real.sqrt_sq (by norm_num : (0 : ℝ) ≤ 2)]

/-- C2 counterexample: in the scenario with target `(0, 0, 2)` the acos
argument `(5.76 + 4.84 - 4.0)/(2·2.4·2.2)` equals `0.625`, not the
`0.5871` the claim states (off by far more than two decimal places), and
the solved elbow angle exceeds `2.0088`, so it is not `2.0038` to two
decimal places. -/
theorem solveIK_scenario_counterexample :
    ((5.76 : ℝ) + 4.84 - 4.0) / (2 * 2.4 * 2.2) = 0.625 ∧
    |(0.625 : ℝ) - 0.5871| > 0.005 ∧
    (solveIK testRig ⟨0, 0, 2⟩ ⟨0, 0, 0⟩).jointAngles.joint3 > 2.0088 := by
  refine ⟨by norm_num, ?_, ?_⟩
  · rw [show (0.625 : ℝ) - 0.5871 = 0.0379 by norm_num,
      abs_of_pos (by norm_num : (0 : ℝ) < 0.0379)]
    norm_num
  · rw [testRig_elbow]
    show elbowAngleOf (Real.sqrt ((0 : ℝ) ^ 2 + 2 ^ 2)) 0 > 2.0088
    rw [sqrt_scenario, elbowAngleOf, ikClampedArgument_scenario]
    have hlt := arccos_scenario_lt
    have hpi := Real.pi_gt_d6
    linarith

/-- C2 amended: with the rig at the origin, rest angles 0 and target
`(0, 0, 2)` with orientation `(0, 0, 0)`, the solve yields `joint1 = 0`,
an elbow acos argument `(5.76 + 4.84 - 4.0)/(2·2.4·2.2) = 0.625`, an
elbow angle exactly `π - acos 0.625` (which exceeds `2π/3 ≈ 2.09`, i.e.
about `2.25`, not `2.00`), and a shoulder angle
`atan2(0, 2) + atan2(2.2 sin e, 2.4 + 2.2 cos e)` for that elbow `e`. -/
theorem solveIK_scenario :
    (solveIK testRig ⟨0, 0, 2⟩ ⟨0, 0, 0⟩).jointAngles.joint1 = 0 ∧
    ((5.76 : ℝ) + 4.84 - 4.0) / (2 * 2.4 * 2.2) = 0.625 ∧
    (solveIK testRig ⟨0, 0, 2⟩ ⟨0, 0, 0⟩).jointAngles.joint3 = π - Real.arccos 0.625 ∧
    (solveIK testRig ⟨0, 0, 2⟩ ⟨0, 0, 0⟩).jointAngles.joint3 > 2 * π / 3 ∧
    (solveIK testRig ⟨0, 0, 2⟩ ⟨0, 0, 0⟩).jointAngles.joint2 =
      atan2 0 2 + atan2 (2.2 * Real.sin (π - Real.arccos 0.625))
        (2.4 + 2.2 * Real.cos (π - Real.arccos 0.625)) := by
  have helbow : (solveIK testRig ⟨0, 0, 2⟩ ⟨0, 0, 0⟩).jointAngles.joint3 =
      π - Real.arccos 0.625 := by
    rw [testRig_elbow]
    show elbowAngleOf (Real.sqrt ((0 : ℝ) ^ 2 + 2 ^ 2)) 0 = π - Real.arccos 0.625
    rw [sqrt_scenario, elbowAngleOf, ikClampedArgument_scenario]
  refine ⟨?_, by norm_num, helbow, ?_, ?_⟩
  · rw [testRig_yaw]
    show atan2 0 2 = 0
    simp only [atan2]
    norm_num [Real.arctan_zero]
  · rw [helbow]
    have := arccos_scenario_lt
    linarith
  · rw [testRig_shoulder]
    show shoulderAngleOf (Real.sqrt ((0 : ℝ) ^ 2 + 2 ^ 2)) 0 = _
    rw [sqrt_scenario, shoulderAngleOf, forearmLength, upperArmLength,
      elbowAngleOf, ikClampedArgument_scenario]

/-- Shared floor fact: the real floor of an integer divided by 4 is the
integer floor-division by 4. -/
theorem floor_intCast_div_four (n : ℤ) : ⌊((n : ℝ)) / 4⌋ = n / 4 := by
  rw [show ((n : ℝ)) / 4 = (((n : ℚ) / ((4 : ℕ) : ℚ) : ℚ) : ℝ) by push_cast; ring]
  rw [Rat.floor_cast]
  exact Rat.floor_intCast_div_natCast n 4

/-- Shared phase fact: for nonnegative time the JavaScript remainder in
the phase computation agrees with the mathematical `emod`. -/
theorem cycleOf_eq_emod (t : ℝ) (ht : 0 ≤ t) :
    cycleOf t = ((⌊t * 0.25⌋ % 4 : ℤ) : ℝ) := by
  have hq : (0 : ℝ) ≤ t * 0.25 := mul_nonneg ht (by norm_num)
  have hn0 : (0 : ℤ) ≤ ⌊t * 0.25⌋ := Int.floor_nonneg.mpr hq
  rw [cycleOf, jsMod, jsTrunc,
    if_pos (div_nonneg (Int.cast_nonneg.mpr hn0) (by norm_num : (0 : ℝ) ≤ 4))]
  rw [floor_intCast_div_four, Int.emod_def]
  push_cast
  ring

/-- Shared projection: the solver never touches the finger targets. -/
theorem solveIK_leftFingers (r : Rig) (tp : Vec3) (tr : EulerA) :
    (solveIK r tp tr).leftFingers = r.leftFingers := by
  cases h1 : r.joint1 <;> cases h2 : r.joint2 <;> cases h3 : r.joint3 <;>
    simp [solveIK, h1, h2, h3, applyWrist_leftFingers]

/-- Shared projection: the solver never touches the finger targets. -/
theorem solveIK_rightFingers (r : Rig) (tp : Vec3) (tr : EulerA) :
    (solveIK r tp tr).rightFingers = r.rightFingers := by
  cases h1 : r.joint1 <;> cases h2 : r.joint2 <;> cases h3 : r.joint3 <;>
    simp [solveIK, h1, h2, h3, applyWrist_rightFingers]

/-- C6: for every nonnegative time the phase index
`floor(t·0.25) mod 4` lies in `{0, 1, 2, 3}`, the intra-phase progress
`(t·0.25) mod 1` lies in `[0, 1]`, the progress is eased by exactly the
piecewise function `p < 0.5 ? 2p² : 1 - (-2p+2)²/2` before being used for
interpolation (phase 1's lift height is `-2.5 + ease(progress)·2`), and
over one full cycle `[4k, 4(k+1))` for `k = 0, 1, 2, 3` the phase is
exactly `k` — the four phases are visited in strict increasing order
with no skips. -/
theorem motion_phase_machine (t : ℝ) (ht : 0 ≤ t) :
    (cycleOf t = 0 ∨ cycleOf t = 1 ∨ cycleOf t = 2 ∨ cycleOf t = 3) ∧
    (0 ≤ cycleTimeOf t ∧ cycleTimeOf t ≤ 1) ∧
    (∀ p : ℝ, smoothStep p = if p < 0.5 then 2 * p ^ 2 else 1 - (-2 * p + 2) ^ 2 / 2) ∧
    (cycleOf t = 1 → (targetPositionOf t).y = -2.5 + smoothStep (cycleTimeOf t) * 2) ∧
    (∀ k : ℕ, k < 4 → 4 * (k : ℝ) ≤ t → t < 4 * ((k : ℝ) + 1) → cycleOf t = k) := by
  have hq : (0 : ℝ) ≤ t * 0.25 := mul_nonneg ht (by norm_num)
  refine ⟨?_, ?_, ?_, ?_, ?_⟩
  · rw [cycleOf_eq_emod t ht]
    have h : ⌊t * 0.25⌋ % 4 = 0 ∨ ⌊t * 0.25⌋ % 4 = 1 ∨
        ⌊t * 0.25⌋ % 4 = 2 ∨ ⌊t * 0.25⌋ % 4 = 3 := by omega
    rcases h with h | h | h | h <;> (rw [h]; norm_num)
  · rw [cycleTimeOf, jsMod, div_one, jsTrunc, if_pos hq, one_mul]
    constructor
    · linarith [Int.floor_le (t * 0.25)]
    · linarith [Int.lt_floor_add_one (t * 0.25)]
  · intro p
    by_cases h : p < 0.5 <;> (simp [smoothStep, h]; try ring)
  · intro hc
    norm_num [targetPositionOf, hc]
  · intro k hk h1 h2
    have hk4 : (k : ℤ) < 4 := by exact_mod_cast hk
    have hfl : ⌊t * 0.25⌋ = (k : ℤ) := by
      rw [Int.floor_eq_iff]
      constructor
      · push_cast; linarith
      · push_cast; linarith
    rw [cycleOf_eq_emod t ht, hfl]
    have hmod : ((k : ℤ)) % 4 = (k : ℤ) := by omega
    rw [hmod]
    push_cast
    ring

/-- Witness for C6: at time 5 the phase index lies in `{0, 1, 2, 3}`. -/
theorem motion_phase_machine_witness :
    cycleOf 5 = 0 ∨ cycleOf 5 = 1 ∨ cycleOf 5 = 2 ∨ cycleOf 5 = 3 :=
  (motion_phase_machine 5 (by norm_num)).1

/-- C8: the gripper command is open throughout phase 0, closed in phases
1 and 2, and in phase 3 closed exactly while the intra-phase progress is
below 0.3; the finger separation has exactly the two target widths 0.08
(closed) and 0.15 (open); and the per-frame grip value is exposed on the
rig as its `isGripping` state (the finger targets tween toward the
two-valued width). -/
theorem animate_gripper_cycle (t : ℝ) (r : Rig) :
    (cycleOf t = 0 → gripOf t = false) ∧
    ((cycleOf t = 1 ∨ cycleOf t = 2) → gripOf t = true) ∧
    (cycleOf t = 3 → (gripOf t = true ↔ cycleTimeOf t < 0.3)) ∧
    (gripperWidthOf t = 0.08 ∨ gripperWidthOf t = 0.15) ∧
    (gripperWidthOf t = 0.08 ↔ gripOf t = true) ∧
    (animateUniversalRobot r t).isGripping = gripOf t ∧
    (animateUniversalRobot r t).leftFingers =
      r.leftFingers.map (fun _ => -gripperWidthOf t) ∧
    (animateUniversalRobot r t).rightFingers =
      r.rightFingers.map (fun _ => gripperWidthOf t) := by
  refine ⟨?_, ?_, ?_, ?_, ?_, ?_, ?_, ?_⟩
  · intro h
    rw [gripOf, if_pos h]
  · intro h
    rcases h with h | h
    · rw [gripOf, if_neg (by rw [h]; norm_num), if_pos h]
    · rw [gripOf, if_neg (by rw [h]; norm_num), if_neg (by rw [h]; norm_num),
        if_pos h]
  · intro h
    rw [gripOf, if_neg (by rw [h]; norm_num), if_neg (by rw [h]; norm_num),
      if_neg (by rw [h]; norm_num), if_pos h]
    by_cases hc : cycleTimeOf t < 0.3 <;> simp [hc]
  · rw [gripperWidthOf]
    cases gripOf t <;> simp
  · rw [gripperWidthOf]
    cases h : gripOf t <;> norm_num [h]
  · rfl
  · show (solveIK r (targetPositionOf t) (targetRotationOf t)).leftFingers.map
      (fun _ => -gripperWidthOf t) = r.leftFingers.map (fun _ => -gripperWidthOf t)
    rw [solveIK_leftFingers]
  · show (solveIK r (targetPositionOf t) (targetRotationOf t)).rightFingers.map
      (fun _ => gripperWidthOf t) = r.rightFingers.map (fun _ => gripperWidthOf t)
    rw [solveIK_rightFingers]

/-- Witness for C8: at time 5 (phase 1) the gripper command is closed. -/
theorem animate_gripper_cycle_witness : gripOf 5 = true := by
  have hc : cycleOf 5 = 1 := by
    rw [cycleOf_eq_emod 5 (by norm_num), show ((5 : ℝ) * 0.25) = 1.25 by norm_num]
    norm_num
  exact (animate_gripper_cycle 5 testRig).2.1 (Or.inl hc)

/-- C10: the per-frame motion computation is a pure function of the
supplied time: equal times yield the identical target position, target
orientation and gripper command, and the full animation step maps equal
times on the same rig to identical rigs. -/
theorem animate_deterministic (t1 t2 : ℝ) (r : Rig) (h : t1 = t2) :
    targetPositionOf t1 = targetPositionOf t2 ∧
    targetRotationOf t1 = targetRotationOf t2 ∧
    gripOf t1 = gripOf t2 ∧
    animateUniversalRobot r t1 = animateUniversalRobot r t2 := by
  subst h
  exact ⟨rfl, rfl, rfl, rfl⟩

/-- Witness for C10: two invocations at time 0 agree. -/
theorem animate_deterministic_witness :
    animateUniversalRobot testRig 0 = animateUniversalRobot testRig 0 :=
  (animate_deterministic 0 0 testRig rfl).2.2.2

/-- C5 counterexample: the segment-based robot constructions are animated
through the same solver, yet their built-in shoulder-to-elbow offsets
(2.0 and 1.0) and elbow-to-wrist offsets (1.8 and 0.8) differ from the
solver's constants 2.4 and 2.2. -/
theorem link_length_counterexample :
    segmentRigUpperArmLength ≠ upperArmLength ∧
    compactRigUpperArmLength ≠ upperArmLength ∧
    segmentRigForearmLength ≠ forearmLength ∧
    compactRigForearmLength ≠ forearmLength := by
  refine ⟨?_, ?_, ?_, ?_⟩ <;>
    norm_num [segmentRigUpperArmLength, compactRigUpperArmLength,
      segmentRigForearmLength, compactRigForearmLength, upperArmLength,
      forearmLength]

/-- C5 amended: the detailed rig's geometry offsets (elbow joint 2.4
along the upper arm, wrist joint 2.2 along the forearm) are exactly the
constants consumed by the solver, but the segment-based construction
variants, which are animated through the same solver, use different
lengths. -/
theorem link_length_invariant :
    detailedRigUpperArmLength = upperArmLength ∧
    detailedRigForearmLength = forearmLength ∧
    segmentRigUpperArmLength ≠ upperArmLength ∧
    compactRigUpperArmLength ≠ upperArmLength := by
  refine ⟨?_, ?_, ?_, ?_⟩ <;>
    norm_num [detailedRigUpperArmLength, detailedRigForearmLength,
      segmentRigUpperArmLength, compactRigUpperArmLength, upperArmLength,
      forearmLength]

end RoboticsLanding
